import Mathlib

/-!
Verification of the task manager in src/main.py.

The embedding is shallow: JSON documents are an inductive value type,
Python datetime objects become a record of numeric fields, the two classes
Task and TaskManager become Lean structures, and every operation of the
program becomes a total Lean function.  File input/output is abstracted:
save_to_file returns the JSON value that json.dump would write, and
load_from_file consumes the JSON value that json.load would produce.
Calls to datetime.now() become explicit arguments, one per call site.
-/

set_option maxHeartbeats 1000000

namespace Py

/-- JSON values as handled by the json module.  Numbers are restricted to
integers: no behaviour relevant here distinguishes floats. -/
inductive JVal where
  | jnull : JVal
  | jbool : Bool → JVal
  | jnum : Int → JVal
  | jstr : String → JVal
  | jarr : List JVal → JVal
  | jobj : List (String × JVal) → JVal
  deriving Repr

/-- Python datetime restricted to the fields the program touches.
Timestamps in memory carry microseconds; the serialized format drops them. -/
structure DateTime where
  year : Nat
  month : Nat
  day : Nat
  hour : Nat
  minute : Nat
  second : Nat
  microsecond : Nat
  deriving Repr, DecidableEq

/-- Leap-year rule of the proleptic Gregorian calendar used by datetime. -/
def isLeapYear (y : Nat) : Bool :=
  y % 4 == 0 && (y % 100 != 0 || y % 400 == 0)

/-- Number of days of a month, as validated by the datetime constructor. -/
def daysInMonth (y m : Nat) : Nat :=
  if m = 2 then (if isLeapYear y then 29 else 28)
  else if m = 4 ∨ m = 6 ∨ m = 9 ∨ m = 11 then 30
  else 31

/-- The invariants every Python datetime object satisfies by construction
(MINYEAR = 1, MAXYEAR = 9999, calendar-valid day, in-range time fields). -/
def DateTime.Valid (d : DateTime) : Prop :=
  1 ≤ d.year ∧ d.year ≤ 9999 ∧ 1 ≤ d.month ∧ d.month ≤ 12 ∧
  1 ≤ d.day ∧ d.day ≤ daysInMonth d.year d.month ∧
  d.hour ≤ 23 ∧ d.minute ≤ 59 ∧ d.second ≤ 59 ∧ d.microsecond ≤ 999999

instance DateTime.instDecidableValid (d : DateTime) : Decidable d.Valid :=
  inferInstanceAs (Decidable (_ ∧ _))

/-- Decimal digit character of a value below ten. -/
def digitChar (n : Nat) : Char := Char.ofNat (48 + n)

/-- The Unicode decimal-digit ranges (category Nd) matched by the regular
expression class \d that strptime compiles for a str pattern, as pairs of
first code point and length.  The digit value of a code point is its offset
in the range modulo ten (the long mathematical-digit run packs five
consecutive 0-9 blocks); int() assigns the same values. -/
def ndRanges : List (Nat × Nat) :=
  [(48, 10), (1632, 10), (1776, 10), (1984, 10), (2406, 10), (2534, 10),
   (2662, 10), (2790, 10), (2918, 10), (3046, 10), (3174, 10), (3302, 10),
   (3430, 10), (3558, 10), (3664, 10), (3792, 10), (3872, 10), (4160, 10),
   (4240, 10), (6112, 10), (6160, 10), (6470, 10), (6608, 10), (6784, 10),
   (6800, 10), (6992, 10), (7088, 10), (7232, 10), (7248, 10), (42528, 10),
   (43216, 10), (43264, 10), (43472, 10), (43504, 10), (43600, 10),
   (44016, 10), (65296, 10), (66720, 10), (68912, 10), (69734, 10),
   (69872, 10), (69942, 10), (70096, 10), (70384, 10), (70736, 10),
   (70864, 10), (71248, 10), (71360, 10), (71472, 10), (71904, 10),
   (72016, 10), (72784, 10), (73040, 10), (73120, 10), (92768, 10),
   (92864, 10), (93008, 10), (120782, 50), (123200, 10), (123632, 10),
   (125264, 10), (130032, 10)]

/-- The code points matched by the regular expression class \s, which the
literal space of the format string turns into. -/
def spaceCodes : List Nat :=
  [9, 10, 11, 12, 13, 28, 29, 30, 31, 32, 133, 160, 5760, 8192, 8193, 8194,
   8195, 8196, 8197, 8198, 8199, 8200, 8201, 8202, 8232, 8233, 8239, 8287,
   12288]

/-- The Nd range containing a character, when there is one. -/
def ndStart (c : Char) : Option (Nat × Nat) :=
  ndRanges.find? fun r => decide (r.1 ≤ c.toNat ∧ c.toNat < r.1 + r.2)

/-- Does \d match the character? -/
def isUniDigit (c : Char) : Bool := (ndStart c).isSome

/-- Decimal value of a digit character, as int() computes it. -/
def uval (c : Char) : Nat :=
  match ndStart c with
  | some r => (c.toNat - r.1) % 10
  | none => 0

/-- Does \s match the character? -/
def isSpaceChar (c : Char) : Bool := spaceCodes.contains c.toNat

/-- An ASCII character class such as [0-5] of the field expressions. -/
def asciiBetween (lo hi c : Char) : Bool := decide (lo ≤ c ∧ c ≤ hi)

/-- Formatting directive %02d: two-digit zero-padded decimal.  Every field it
is applied to (month, day, hour, minute, second) is below 100 on a datetime
object, where the padded form and the C directive agree. -/
def pad2 (n : Nat) : List Char := [digitChar (n / 10 % 10), digitChar (n % 10)]

/-- Four-digit zero-padded decimal: what %Y emits for years 1000-9999 and
what the %Y field expression consumes. -/
def pad4 (n : Nat) : List Char :=
  [digitChar (n / 1000 % 10), digitChar (n / 100 % 10),
   digitChar (n / 10 % 10), digitChar (n % 10)]

/-- Formatting directive %Y as the C library prints it: the year in plain
decimal with no leading zeros (datetime years never exceed 9999), so years
below 1000 come out shorter than four digits. -/
def padNat (n : Nat) : List Char :=
  if n < 10 then [digitChar n]
  else if n < 100 then [digitChar (n / 10), digitChar (n % 10)]
  else if n < 1000 then
    [digitChar (n / 100), digitChar (n / 10 % 10), digitChar (n % 10)]
  else pad4 n

/-- Method strftime with format "%Y-%m-%d %H:%M:%S": second precision, the
microsecond field is dropped, the year unpadded below 1000. -/
def DateTime.strftime (d : DateTime) : String :=
  String.mk (padNat d.year ++ '-' :: pad2 d.month ++ '-' :: pad2 d.day ++
    ' ' :: pad2 d.hour ++ ':' :: pad2 d.minute ++ ':' :: pad2 d.second)

/-- Exactly four \d digits: the %Y field expression; the value is int() of
the matched text. -/
def digits4 : List Char → Option (Nat × List Char)
  | c1 :: c2 :: c3 :: c4 :: rest =>
    if isUniDigit c1 && isUniDigit c2 && isUniDigit c3 && isUniDigit c4 then
      some (1000 * uval c1 + 100 * uval c2 + 10 * uval c3 + uval c4, rest)
    else none
  | _ => none

/-- Two-character alternatives of the %m expression 1[0-2]|0[1-9]|[1-9];
the bracketed classes are ASCII. -/
def monthTwo (c1 c2 : Char) : Bool :=
  (c1 == '1' && asciiBetween '0' '2' c2) || (c1 == '0' && asciiBetween '1' '9' c2)

/-- One-character alternative of %m. -/
def monthOne (c1 : Char) : Bool := asciiBetween '1' '9' c1

/-- Two-character alternatives of the %d expression
3[0-1]|[1-2]\d|0[1-9]|[1-9]| [1-9]: the second characters of [1-2]\d are
any Unicode digits, and the last alternative is a space-padded day. -/
def dayTwo (c1 c2 : Char) : Bool :=
  (c1 == '3' && asciiBetween '0' '1' c2) ||
  ((c1 == '1' || c1 == '2') && isUniDigit c2) ||
  (c1 == '0' && asciiBetween '1' '9' c2) ||
  (c1 == ' ' && asciiBetween '1' '9' c2)

/-- One-character alternative of %d. -/
def dayOne (c1 : Char) : Bool := asciiBetween '1' '9' c1

/-- Two-character alternatives of the %H expression 2[0-3]|[0-1]\d|\d. -/
def hourTwo (c1 c2 : Char) : Bool :=
  (c1 == '2' && asciiBetween '0' '3' c2) ||
  ((c1 == '0' || c1 == '1') && isUniDigit c2)

/-- One-character alternative of %H: a single \d. -/
def hourOne (c1 : Char) : Bool := isUniDigit c1

/-- Two-character alternative of the %M expression [0-5]\d|\d. -/
def minuteTwo (c1 c2 : Char) : Bool := asciiBetween '0' '5' c1 && isUniDigit c2

/-- One-character alternative of %M. -/
def minuteOne (c1 : Char) : Bool := isUniDigit c1

/-- Two-character alternatives of the %S expression 6[0-1]|[0-5]\d|\d. -/
def secondTwo (c1 c2 : Char) : Bool :=
  (c1 == '6' && asciiBetween '0' '1' c2) ||
  (asciiBetween '0' '5' c1 && isUniDigit c2)

/-- One-character alternative of %S. -/
def secondOne (c1 : Char) : Bool := isUniDigit c1

/-- int() of a two-digit group. -/
def twoVal (c1 c2 : Char) : Nat := 10 * uval c1 + uval c2

/-- int() of a matched day group: the space-padded alternative contributes
only its digit. -/
def dayVal (c1 c2 : Char) : Nat :=
  if c1 == ' ' then uval c2 else 10 * uval c1 + uval c2

/-- One numeric field of the compiled pattern.  The regular expression tries
the two-character alternatives before the one-character ones with
backtracking, but each field is followed by a separator (literal dash or
colon, a whitespace run, or the end-of-input check) that never matches a
digit, while every two-character alternative ends in a digit: when the
character after the first is a digit the one-character route is dead, and
otherwise the two-character alternatives are, so the match is deterministic. -/
def parseField (twoOk : Char → Char → Bool) (v2 : Char → Char → Nat)
    (oneOk : Char → Bool) : List Char → Option (Nat × List Char)
  | [] => none
  | [c1] => if oneOk c1 then some (uval c1, []) else none
  | c1 :: c2 :: rest =>
    if isUniDigit c2 then
      if twoOk c1 c2 then some (v2 c1 c2, rest) else none
    else
      if oneOk c1 then some (uval c1, c2 :: rest) else none

/-- A literal character of the format string. -/
def expectChar (c : Char) : List Char → Option (List Char)
  | [] => none
  | c2 :: rest => if c2 = c then some rest else none

/-- Greedy tail of a whitespace run. -/
def skipWsMany : List Char → List Char
  | [] => []
  | c :: rest => if isSpaceChar c then skipWsMany rest else c :: rest

/-- One-or-more whitespace: the \s+ that the literal space of the format
string is compiled to. -/
def skipWs1 : List Char → Option (List Char)
  | [] => none
  | c :: rest => if isSpaceChar c then some (skipWsMany rest) else none

/-- Validation performed by the datetime constructor after field extraction
(this is where seconds 60 and 61, day 30 of February and year 0 are refused). -/
def mkValidated (d : DateTime) : Option DateTime :=
  if d.Valid then some d else none

/-- Function datetime.strptime(s, "%Y-%m-%d %H:%M:%S").  The compiled
pattern is the concatenation of the field expressions %Y %m %d %H %M %S with
literal dashes and colons and \s+ for the space, anchored at the start;
unconverted trailing data is an error; the extracted fields then pass through
the datetime constructor.  Returns none where Python raises ValueError. -/
def strptimeYmdHMS (s : String) : Option DateTime :=
  (digits4 s.toList).bind fun py =>
  (expectChar '-' py.2).bind fun cs1 =>
  (parseField monthTwo twoVal monthOne cs1).bind fun pmo =>
  (expectChar '-' pmo.2).bind fun cs2 =>
  (parseField dayTwo dayVal dayOne cs2).bind fun pda =>
  (skipWs1 pda.2).bind fun cs3 =>
  (parseField hourTwo twoVal hourOne cs3).bind fun pho =>
  (expectChar ':' pho.2).bind fun cs4 =>
  (parseField minuteTwo twoVal minuteOne cs4).bind fun pmi =>
  (expectChar ':' pmi.2).bind fun cs5 =>
  (parseField secondTwo twoVal secondOne cs5).bind fun pse =>
  if pse.2 = [] then
    mkValidated ⟨py.1, pmo.1, pda.1, pho.1, pmi.1, pse.1, 0⟩
  else none

/-- Enum class TaskStatus with its five Russian display labels, accessed in
Python through the attribute value. -/
inductive TaskStatus where
  | NEW | IN_PROGRESS | IN_REVIEW | COMPLETED | CANCELED
  deriving Repr, DecidableEq

def TaskStatus.value : TaskStatus → String
  | .NEW => "Новая"
  | .IN_PROGRESS => "Выполняется"
  | .IN_REVIEW => "Ревью"
  | .COMPLETED => "Выполнено"
  | .CANCELED => "Отменено"

/-- Call TaskStatus(x): Enum lookup by value.  Returns none (Python raises
ValueError) for any value that is not one of the five labels. -/
def TaskStatus.fromValue (s : String) : Option TaskStatus :=
  if s = "Новая" then some .NEW
  else if s = "Выполняется" then some .IN_PROGRESS
  else if s = "Ревью" then some .IN_REVIEW
  else if s = "Выполнено" then some .COMPLETED
  else if s = "Отменено" then some .CANCELED
  else none

/-- Dataclass Task.  The fields title and description are kept as JSON
values: from_dict performs no type check on them, so a loaded task can carry
non-string values there; tasks built by the interactive loop carry strings. -/
structure Task where
  title : JVal
  description : JVal
  status : TaskStatus
  created_date : DateTime
  status_changed_date : DateTime
  deriving Repr

/-- The exceptions the embedded operations raise.  In the vocabulary of the
spec, keyError, valueError and typeError arising in deserialization are the
FormatError; the valueError raised by change_task_status is the
NotFoundError. -/
inductive PyError where
  | keyError | valueError | typeError | attributeError
  deriving Repr, DecidableEq

/-- Method Task.to_dict: the mapping handed to json.dump. -/
def Task.to_dict (t : Task) : List (String × JVal) :=
  [("title", t.title),
   ("description", t.description),
   ("status", .jstr t.status.value),
   ("created_date", .jstr t.created_date.strftime),
   ("status_changed_date", .jstr t.status_changed_date.strftime)]

/-- Subscript data[key] on a JSON object: Python dict lookup.  Objects read
by json.load have unique keys; the first binding wins here. -/
def lookupKey (k : String) : List (String × JVal) → Option JVal
  | [] => none
  | kv :: rest => if kv.1 = k then some kv.2 else lookupKey k rest

/-- Call TaskStatus(v) on an arbitrary JSON value: ValueError unless v is one
of the five label strings. -/
def parseStatus : JVal → Except PyError TaskStatus
  | .jstr s =>
    match TaskStatus.fromValue s with
    | some st => .ok st
    | none => .error .valueError
  | _ => .error .valueError

/-- Call datetime.strptime(v, "%Y-%m-%d %H:%M:%S") on an arbitrary JSON
value: TypeError unless v is a string, ValueError unless it parses. -/
def parseTimestamp : JVal → Except PyError DateTime
  | .jstr s =>
    match strptimeYmdHMS s with
    | some d => .ok d
    | none => .error .valueError
  | _ => .error .typeError

/-- Body of Task.from_dict once the five subscripts are in hand, in the order
Python evaluates the keyword arguments of cls(...): title, description,
status, created_date, status_changed_date.  A missing key is a KeyError. -/
def buildTask (tv dv sv cv scv : Option JVal) : Except PyError Task :=
  match tv with
  | none => .error .keyError
  | some title =>
  match dv with
  | none => .error .keyError
  | some description =>
  match sv with
  | none => .error .keyError
  | some sval =>
  match parseStatus sval with
  | .error e => .error e
  | .ok status =>
  match cv with
  | none => .error .keyError
  | some cval =>
  match parseTimestamp cval with
  | .error e => .error e
  | .ok created =>
  match scv with
  | none => .error .keyError
  | some scval =>
  match parseTimestamp scval with
  | .error e => .error e
  | .ok scd => .ok ⟨title, description, status, created, scd⟩

/-- Classmethod Task.from_dict.  Subscripting a non-object value raises
TypeError (string indices must be integers, and so on). -/
def Task.from_dict : JVal → Except PyError Task
  | .jobj kvs =>
    buildTask (lookupKey "title" kvs) (lookupKey "description" kvs)
      (lookupKey "status" kvs) (lookupKey "created_date" kvs)
      (lookupKey "status_changed_date" kvs)
  | _ => .error .typeError

/-- One entry of the in-memory history list.  The formatted Russian f-strings
of the source are abstracted to their data: which event happened, the title
interpolated into the message, and for a status change the new status (whose
label the message interpolates through new_status.value). -/
inductive HistoryEntry where
  | added (title : JVal)
  | statusChanged (title : JVal) (newStatus : TaskStatus)
  deriving Repr

/-- Class TaskManager: the ordered task list plus the in-memory history. -/
structure TaskManager where
  tasks : List Task
  history : List HistoryEntry
  deriving Repr

/-- Constructor TaskManager(tasks): the history always starts empty
(self.history = []); tasks defaults to the empty list. -/
def TaskManager.init (tasks : List Task) : TaskManager :=
  { tasks := tasks, history := [] }

/-- Method TaskManager.add_task: append the task and one history line. -/
def TaskManager.add_task (m : TaskManager) (task : Task) : TaskManager :=
  { tasks := m.tasks ++ [task],
    history := m.history ++ [.added task.title] }

/-- Comparison task.title == task_title, where the left side is the stored
JSON value and the right side the caller string: true exactly for the equal
string value. -/
def JVal.eqString : JVal → String → Bool
  | .jstr s, t => s = t
  | _, _ => false

/-- The for-loop of change_task_status: walk the list, and at the first task
whose title equals the argument, assign the new status and the new
status_changed_date and stop.  Returns the matched title (the one the
history f-string interpolates) with the updated list, or none when the loop
falls through to its else clause. -/
def changeLoop (title : String) (newStatus : TaskStatus) (now : DateTime) :
    List Task → Option (JVal × List Task)
  | [] => none
  | t :: ts =>
    if t.title.eqString title then
      some (t.title, { t with status := newStatus, status_changed_date := now } :: ts)
    else
      (changeLoop title newStatus now ts).map fun r => (r.1, t :: r.2)

/-- Method TaskManager.change_task_status.  The result pairs the state of the
manager after the call with the exception it raised, if any: Python mutates
in place, and when the title is missing the ValueError is raised after the
loop, with no mutation done, so the state component is the original manager.
The datetime.now() read inside the loop body is the argument now. -/
def TaskManager.change_task_status (m : TaskManager) (task_title : String)
    (new_status : TaskStatus) (now : DateTime) : TaskManager × Option PyError :=
  match changeLoop task_title new_status now m.tasks with
  | some r =>
    ({ tasks := r.2, history := m.history ++ [.statusChanged r.1 new_status] }, none)
  | none => (m, some .valueError)

/-- Method TaskManager.cancel_task: delegates to change_task_status with
TaskStatus.CANCELED. -/
def TaskManager.cancel_task (m : TaskManager) (task_title : String)
    (now : DateTime) : TaskManager × Option PyError :=
  m.change_task_status task_title TaskStatus.CANCELED now

/-- Method TaskManager.save_to_file: the JSON document json.dump writes,
of shape with key tasks mapped to the serialized task array.  The file write
itself is abstracted away. -/
def TaskManager.save_to_file (m : TaskManager) : JVal :=
  .jobj [("tasks", .jarr (m.tasks.map fun t => .jobj t.to_dict))]

/-- Python iteration over a JSON value, as the list comprehension of
load_from_file performs it: arrays yield their elements, strings their
one-character substrings, objects their keys; other values raise TypeError. -/
def iterJVal : JVal → Option (List JVal)
  | .jarr xs => some xs
  | .jstr s => some (s.toList.map fun c => .jstr (String.mk [c]))
  | .jobj kvs => some (kvs.map fun kv => .jstr kv.1)
  | _ => none

/-- The list comprehension [Task.from_dict(d) for d in items]: sequential,
the first failing element aborts the whole comprehension. -/
def mapFromDict : List JVal → Except PyError (List Task)
  | [] => .ok []
  | x :: xs =>
    match Task.from_dict x with
    | .error e => .error e
    | .ok t =>
      match mapFromDict xs with
      | .error e => .error e
      | .ok ts => .ok (t :: ts)

/-- Classmethod TaskManager.load_from_file, applied to the JSON value that
json.load produced (file reading and text parsing abstracted away).  The
data.get call exists only on objects: any other document raises
AttributeError.  A missing tasks key defaults to the empty list; the fresh
manager is built by the constructor, so its history is empty. -/
def TaskManager.load_from_file (doc : JVal) : Except PyError TaskManager :=
  match doc with
  | .jobj kvs =>
    match iterJVal ((lookupKey "tasks" kvs).getD (.jarr [])) with
    | none => .error .typeError
    | some items =>
      match mapFromDict items with
      | .error e => .error e
      | .ok ts => .ok (TaskManager.init ts)
  | _ => .error .attributeError

/-- The Task constructed by the add branch of the interactive loop:
status NEW, created_date and status_changed_date from two separate
datetime.now() calls, now1 then now2. -/
def mkAddedTask (title description : String) (now1 now2 : DateTime) : Task :=
  { title := .jstr title, description := .jstr description,
    status := .NEW, created_date := now1, status_changed_date := now2 }

/-! ### Helper lemmas: the timestamp format round-trips -/

theorem daysInMonth_le (y m : Nat) : daysInMonth y m ≤ 31 := by
  unfold daysInMonth
  split_ifs <;> omega

theorem isUniDigit_digitChar (n : Nat) (h : n ≤ 9) :
    isUniDigit (digitChar n) = true := by
  interval_cases n <;> decide

theorem uval_digitChar (n : Nat) (h : n ≤ 9) : uval (digitChar n) = n := by
  interval_cases n <;> decide

theorem isSpaceChar_digitChar (n : Nat) (h : n ≤ 9) :
    isSpaceChar (digitChar n) = false := by
  interval_cases n <;> decide

theorem digitChar_ne_space (n : Nat) (h : n ≤ 9) : (digitChar n == ' ') = false := by
  interval_cases n <;> decide

theorem twoVal_digitChar (n : Nat) (h : n ≤ 99) :
    twoVal (digitChar (n / 10 % 10)) (digitChar (n % 10)) = n := by
  simp only [twoVal]
  rw [uval_digitChar _ (by omega), uval_digitChar _ (by omega)]
  omega

theorem dayVal_digitChar (n : Nat) (h : n ≤ 99) :
    dayVal (digitChar (n / 10 % 10)) (digitChar (n % 10)) = n := by
  simp only [dayVal, digitChar_ne_space (n / 10 % 10) (by omega)]
  simp only [Bool.false_eq_true, if_false]
  rw [uval_digitChar _ (by omega), uval_digitChar _ (by omega)]
  omega

theorem digits4_pad4 (n : Nat) (h : n ≤ 9999) (rest : List Char) :
    digits4 (pad4 n ++ rest) = some (n, rest) := by
  have h1 : n / 1000 % 10 ≤ 9 := Nat.le_of_lt_succ (Nat.mod_lt _ (by norm_num))
  have h2 : n / 100 % 10 ≤ 9 := Nat.le_of_lt_succ (Nat.mod_lt _ (by norm_num))
  have h3 : n / 10 % 10 ≤ 9 := Nat.le_of_lt_succ (Nat.mod_lt _ (by norm_num))
  have h4 : n % 10 ≤ 9 := Nat.le_of_lt_succ (Nat.mod_lt _ (by norm_num))
  simp [pad4, digits4, isUniDigit_digitChar _ h1, isUniDigit_digitChar _ h2,
    isUniDigit_digitChar _ h3, isUniDigit_digitChar _ h4, uval_digitChar _ h1,
    uval_digitChar _ h2, uval_digitChar _ h3, uval_digitChar _ h4]
  omega

theorem expectChar_self (c : Char) (rest : List Char) :
    expectChar c (c :: rest) = some rest := by
  simp [expectChar]

theorem padNat_eq_pad4 (n : Nat) (h : 1000 ≤ n) : padNat n = pad4 n := by
  unfold padNat
  rw [if_neg (by omega), if_neg (by omega), if_neg (by omega)]

/-- Parsing a zero-padded two-digit field: the second character is a digit,
so the two-character alternatives decide the match. -/
theorem parseField_pad2 (twoOk : Char → Char → Bool) (v2 : Char → Char → Nat)
    (oneOk : Char → Bool) (n : Nat)
    (ht : twoOk (digitChar (n / 10 % 10)) (digitChar (n % 10)) = true)
    (hv : v2 (digitChar (n / 10 % 10)) (digitChar (n % 10)) = n)
    (rest : List Char) :
    parseField twoOk v2 oneOk (pad2 n ++ rest) = some (n, rest) := by
  have e2 : isUniDigit (digitChar (n % 10)) = true :=
    isUniDigit_digitChar _ (Nat.le_of_lt_succ (Nat.mod_lt _ (by norm_num)))
  simp [pad2, parseField, e2, ht, hv]

/-- The whitespace run after the single formatted space stops at the first
digit of the hour field. -/
theorem skipWs1_space_pad2 (k : Nat) (rest : List Char) :
    skipWs1 (' ' :: (pad2 k ++ rest)) = some (pad2 k ++ rest) := by
  have h1 : isSpaceChar (digitChar (k / 10 % 10)) = false :=
    isSpaceChar_digitChar _ (Nat.le_of_lt_succ (Nat.mod_lt _ (by norm_num)))
  have h2 : isSpaceChar ' ' = true := by decide
  simp [pad2, skipWs1, skipWsMany, h1, h2]

/-- Core round trip of the timestamp format: parsing a formatted valid
datetime with zero microseconds and a four-digit year gives it back (below
year 1000 the unpadded output does not reparse and no round trip exists). -/
theorem strptime_strftime (d : DateTime) (hv : d.Valid) (hm : d.microsecond = 0)
    (hy : 1000 ≤ d.year) :
    strptimeYmdHMS d.strftime = some d := by
  obtain ⟨y, mo, da, ho, mi, se, mu⟩ := d
  obtain ⟨h1, h2, h3, h4, h5, h6, h7, h8, h9, h10⟩ := hv
  simp only at h1 h2 h3 h4 h5 h6 h7 h8 h9 h10
  simp only at hm hy
  subst hm
  have hda31 : da ≤ 31 := le_trans h6 (daysInMonth_le y mo)
  have hmoT : monthTwo (digitChar (mo / 10 % 10)) (digitChar (mo % 10)) = true := by
    interval_cases mo <;> decide
  have hdaT : dayTwo (digitChar (da / 10 % 10)) (digitChar (da % 10)) = true := by
    interval_cases da <;> decide
  have hhoT : hourTwo (digitChar (ho / 10 % 10)) (digitChar (ho % 10)) = true := by
    interval_cases ho <;> decide
  have hmiT : minuteTwo (digitChar (mi / 10 % 10)) (digitChar (mi % 10)) = true := by
    interval_cases mi <;> decide
  have hseT : secondTwo (digitChar (se / 10 % 10)) (digitChar (se % 10)) = true := by
    interval_cases se <;> decide
  have hse : parseField secondTwo twoVal secondOne (pad2 se) = some (se, []) := by
    have := parseField_pad2 secondTwo twoVal secondOne se hseT
      (twoVal_digitChar se (by omega)) []
    rwa [List.append_nil] at this
  unfold DateTime.strftime strptimeYmdHMS
  rw [padNat_eq_pad4 y hy]
  simp only [String.toList]
  simp [digits4_pad4 y (by omega), expectChar_self, skipWs1_space_pad2,
    parseField_pad2 monthTwo twoVal monthOne mo hmoT (twoVal_digitChar mo (by omega)),
    parseField_pad2 dayTwo dayVal dayOne da hdaT (dayVal_digitChar da (by omega)),
    parseField_pad2 hourTwo twoVal hourOne ho hhoT (twoVal_digitChar ho (by omega)),
    parseField_pad2 minuteTwo twoVal minuteOne mi hmiT (twoVal_digitChar mi (by omega)),
    hse, mkValidated, DateTime.Valid, h1, h2, h3, h4, h5, h6, h7, h8, h9, hda31]

theorem fromValue_value (st : TaskStatus) :
    TaskStatus.fromValue st.value = some st := by
  cases st <;> rfl

/-- Core round trip of a Task through to_dict and from_dict.  The
hypotheses state what holds of every Python datetime object with zero
microseconds, the precision the serialized format keeps. -/
theorem from_dict_to_dict (t : Task)
    (hc : t.created_date.Valid) (hcm : t.created_date.microsecond = 0)
    (hcy : 1000 ≤ t.created_date.year)
    (hs : t.status_changed_date.Valid) (hsm : t.status_changed_date.microsecond = 0)
    (hsy : 1000 ≤ t.status_changed_date.year) :
    Task.from_dict (.jobj t.to_dict) = .ok t := by
  obtain ⟨ti, de, st, cd, scd⟩ := t
  simp only [Task.to_dict, Task.from_dict]
  have l1 : lookupKey "title" [("title", ti), ("description", de),
      ("status", JVal.jstr st.value), ("created_date", JVal.jstr cd.strftime),
      ("status_changed_date", JVal.jstr scd.strftime)] = some ti := rfl
  have l2 : lookupKey "description" [("title", ti), ("description", de),
      ("status", JVal.jstr st.value), ("created_date", JVal.jstr cd.strftime),
      ("status_changed_date", JVal.jstr scd.strftime)] = some de := rfl
  have l3 : lookupKey "status" [("title", ti), ("description", de),
      ("status", JVal.jstr st.value), ("created_date", JVal.jstr cd.strftime),
      ("status_changed_date", JVal.jstr scd.strftime)] = some (JVal.jstr st.value) := rfl
  have l4 : lookupKey "created_date" [("title", ti), ("description", de),
      ("status", JVal.jstr st.value), ("created_date", JVal.jstr cd.strftime),
      ("status_changed_date", JVal.jstr scd.strftime)] = some (JVal.jstr cd.strftime) := rfl
  have l5 : lookupKey "status_changed_date" [("title", ti), ("description", de),
      ("status", JVal.jstr st.value), ("created_date", JVal.jstr cd.strftime),
      ("status_changed_date", JVal.jstr scd.strftime)] = some (JVal.jstr scd.strftime) := rfl
  rw [l1, l2, l3, l4, l5]
  simp [buildTask, parseStatus, parseTimestamp, fromValue_value,
    strptime_strftime cd hc hcm hcy, strptime_strftime scd hs hsm hsy]

/-- The datetime invariants plus what the wire format can reproduce: zero
microseconds (the format keeps seconds only) and a four-digit year (the
format emits years below 1000 unpadded and cannot reparse them). -/
def ValidTimestamps (t : Task) : Prop :=
  t.created_date.Valid ∧ t.created_date.microsecond = 0 ∧
  1000 ≤ t.created_date.year ∧
  t.status_changed_date.Valid ∧ t.status_changed_date.microsecond = 0 ∧
  1000 ≤ t.status_changed_date.year

instance Task.instDecidableValidTimestamps (t : Task) : Decidable (ValidTimestamps t) :=
  inferInstanceAs (Decidable (_ ∧ _))

theorem mapFromDict_to_dict (ts : List Task) (h : ∀ t ∈ ts, ValidTimestamps t) :
    mapFromDict (ts.map fun t => .jobj t.to_dict) = .ok ts := by
  induction ts with
  | nil => rfl
  | cons t rest ih =>
    obtain ⟨hc, hcm, hcy, hs, hsm, hsy⟩ := h t (by simp)
    simp [mapFromDict, from_dict_to_dict t hc hcm hcy hs hsm hsy,
      ih fun x hx => h x (by simp [hx])]

/-! ### Helper lemmas: the status-change loop -/

theorem changeLoop_eq_none (title : String) (s : TaskStatus) (now : DateTime)
    (ts : List Task) (h : ∀ t ∈ ts, t.title.eqString title = false) :
    changeLoop title s now ts = none := by
  induction ts with
  | nil => rfl
  | cons t rest ih =>
    simp [changeLoop, h t (by simp), ih fun x hx => h x (by simp [hx])]

theorem changeLoop_first (title : String) (s : TaskStatus) (now : DateTime)
    (ts : List Task) (i : Nat) (hi : i < ts.length)
    (hmatch : (ts.get ⟨i, hi⟩).title.eqString title = true)
    (hbefore : ∀ j (hj : j < ts.length), j < i →
      (ts.get ⟨j, hj⟩).title.eqString title = false) :
    changeLoop title s now ts =
      some ((ts.get ⟨i, hi⟩).title,
        ts.set i { ts.get ⟨i, hi⟩ with status := s, status_changed_date := now }) := by
  induction ts generalizing i with
  | nil => exact absurd hi (by simp)
  | cons t rest ih =>
    cases i with
    | zero =>
      simp only [List.get] at hmatch
      simp [changeLoop, hmatch, List.set]
    | succ i =>
      have h0 : t.title.eqString title = false := hbefore 0 (by simp) (Nat.succ_pos i)
      have hi2 : i < rest.length := by simpa using hi
      have hm2 : (rest.get ⟨i, hi2⟩).title.eqString title = true := by
        simpa using hmatch
      have hb2 : ∀ j (hj : j < rest.length), j < i →
          (rest.get ⟨j, hj⟩).title.eqString title = false := by
        intro j hj hlt
        have := hbefore (j + 1) (by simpa using Nat.succ_lt_succ hj) (Nat.succ_lt_succ hlt)
        simpa using this
      simp [changeLoop, h0, ih i hi2 hm2 hb2, List.set]

/-! ### Helper lemmas: when from_dict succeeds -/

/-- Generic success test for the embedded exceptions. -/
def exceptOkB {α : Type} : Except PyError α → Bool
  | .ok _ => true
  | .error _ => false

/-- Does a JSON value pass the TaskStatus(...) conversion? -/
def statusOk : JVal → Bool
  | .jstr s => (TaskStatus.fromValue s).isSome
  | _ => false

/-- Does a JSON value pass the strptime conversion? -/
def timestampOk : JVal → Bool
  | .jstr s => (strptimeYmdHMS s).isSome
  | _ => false

/-- Spec-style success condition for deserializing an object record: the five
required keys are present, the status value is one of the five labels and
both timestamp values are strings the format parses. -/
def deserializeOk (kvs : List (String × JVal)) : Bool :=
  (lookupKey "title" kvs).isSome && (lookupKey "description" kvs).isSome &&
  ((lookupKey "status" kvs).elim false statusOk) &&
  ((lookupKey "created_date" kvs).elim false timestampOk) &&
  ((lookupKey "status_changed_date" kvs).elim false timestampOk)

theorem parseStatus_okB (v : JVal) : exceptOkB (parseStatus v) = statusOk v := by
  cases v with
  | jstr s => cases hf : TaskStatus.fromValue s <;>
      simp [parseStatus, statusOk, exceptOkB, hf]
  | jnull => rfl
  | jbool b => rfl
  | jnum n => rfl
  | jarr xs => rfl
  | jobj kvs => rfl

theorem parseTimestamp_okB (v : JVal) : exceptOkB (parseTimestamp v) = timestampOk v := by
  cases v with
  | jstr s => cases hf : strptimeYmdHMS s <;>
      simp [parseTimestamp, timestampOk, exceptOkB, hf]
  | jnull => rfl
  | jbool b => rfl
  | jnum n => rfl
  | jarr xs => rfl
  | jobj kvs => rfl

theorem buildTask_okB (tv dv sv cv scv : Option JVal) :
    exceptOkB (buildTask tv dv sv cv scv) =
      (tv.isSome && dv.isSome && sv.elim false statusOk &&
       cv.elim false timestampOk && scv.elim false timestampOk) := by
  cases tv with
  | none => simp [buildTask, exceptOkB]
  | some title =>
  cases dv with
  | none => simp [buildTask, exceptOkB]
  | some de =>
  cases sv with
  | none => simp [buildTask, exceptOkB]
  | some sval =>
  cases cv with
  | none =>
    cases hps : parseStatus sval <;>
      simp [buildTask, exceptOkB, hps, Option.elim]
  | some cval =>
  cases scv with
  | none =>
    cases hps : parseStatus sval <;>
      cases hpc : parseTimestamp cval <;>
        simp [buildTask, exceptOkB, hps, hpc, Option.elim]
  | some scval =>
    cases hps : parseStatus sval <;>
      cases hpc : parseTimestamp cval <;>
        cases hpsc : parseTimestamp scval <;>
          simp [buildTask, exceptOkB, hps, hpc, hpsc, Option.elim,
            ← parseStatus_okB, ← parseTimestamp_okB]

/-! ### Helper lemmas: unknown keys are ignored -/

/-- The five keys from_dict subscripts. -/
def requiredKeys : List String :=
  ["title", "description", "status", "created_date", "status_changed_date"]

/-- The record restricted to the five required keys, order preserved. -/
def restrictRequired (kvs : List (String × JVal)) : List (String × JVal) :=
  kvs.filter fun kv => requiredKeys.contains kv.1

theorem lookupKey_restrict (k : String) (hk : requiredKeys.contains k = true)
    (kvs : List (String × JVal)) :
    lookupKey k (restrictRequired kvs) = lookupKey k kvs := by
  unfold restrictRequired
  induction kvs with
  | nil => rfl
  | cons kv rest ih =>
    rw [List.filter_cons]
    by_cases hkv : requiredKeys.contains kv.1 = true
    · rw [if_pos hkv]
      by_cases he : kv.1 = k
      · simp only [lookupKey, he, if_true]
      · simp only [lookupKey]
        rw [if_neg he, if_neg he, ih]
    · have hne : kv.1 ≠ k := fun he => hkv (he ▸ hk)
      rw [if_neg hkv, ih]
      simp only [lookupKey]
      rw [if_neg hne]

/-! ### Sample data for the concrete witnesses -/

def d0 : DateTime := ⟨2023, 5, 6, 7, 8, 9, 0⟩

def dNow : DateTime := ⟨2024, 10, 11, 12, 13, 14, 500⟩

def tA : Task := ⟨.jstr "a", .jstr "first", .NEW, d0, d0⟩

def tX1 : Task := ⟨.jstr "x", .jstr "second", .NEW, d0, d0⟩

def tX2 : Task := ⟨.jstr "x", .jstr "third", .COMPLETED, d0, d0⟩

/-! ### The claims -/

/-- A task whose created_date carries live microseconds, as every task the
interactive loop stamps with datetime.now() does. -/
def tMicro : Task :=
  ⟨.jstr "m", .jstr "d", .NEW, ⟨2024, 5, 6, 7, 8, 9, 500000⟩,
    ⟨2024, 5, 6, 7, 8, 9, 0⟩⟩

/-- Microsecond field of the created_date of the first task of a load
result (0 when absent): separates a reloaded store from the original. -/
def firstCreatedMicro : Except PyError TaskManager → Nat
  | .ok mm =>
    match mm.tasks with
    | t :: _ => t.created_date.microsecond
    | [] => 0
  | .error _ => 0

/-- C1 as frozen is refuted: saving keeps only second precision, so a store
holding a task with microsecond-bearing timestamps, as datetime.now()
produces them, does not reload field-for-field equal: the reloaded
created_date has microsecond 0 instead of 500000. -/
theorem claim1_counterexample :
    TaskManager.load_from_file (TaskManager.save_to_file ⟨[tMicro], []⟩) ≠
      .ok ⟨[tMicro], []⟩ := by
  intro h
  have e : firstCreatedMicro (TaskManager.load_from_file
      (TaskManager.save_to_file ⟨[tMicro], []⟩)) = 0 := rfl
  rw [h] at e
  exact absurd e (by decide)

/-- C1 (amended): loading the saved document reproduces the same ordered
task sequence, field for field, for every store whose task timestamps the
wire format can reproduce: valid datetimes with zero microseconds and
four-digit years.  The history is not saved and the loaded history is
empty. -/
theorem claim1_store_round_trip (m : TaskManager)
    (h : ∀ t ∈ m.tasks, ValidTimestamps t) :
    TaskManager.load_from_file m.save_to_file = .ok ⟨m.tasks, []⟩ := by
  have hl : lookupKey "tasks"
      [("tasks", JVal.jarr (m.tasks.map fun t => JVal.jobj t.to_dict))] =
      some (JVal.jarr (m.tasks.map fun t => JVal.jobj t.to_dict)) := rfl
  simp [TaskManager.save_to_file, TaskManager.load_from_file, hl, iterJVal,
    mapFromDict_to_dict m.tasks h, TaskManager.init]

/-- Witness for C1 at a two-task store (duplicate titles) with a non-empty
history that the round trip drops. -/
theorem claim1_store_round_trip_witness :
    TaskManager.load_from_file (TaskManager.save_to_file
      ⟨[⟨.jstr "Write spec", .jstr "draft it", .NEW,
          ⟨2024, 2, 29, 12, 30, 45, 0⟩, ⟨2024, 3, 1, 0, 0, 0, 0⟩⟩,
        ⟨.jstr "Write spec", .jstr "", .CANCELED,
          ⟨1999, 12, 31, 23, 59, 59, 0⟩, ⟨2000, 1, 1, 0, 0, 0, 0⟩⟩],
       [.added (.jstr "Write spec")]⟩) =
      .ok ⟨[⟨.jstr "Write spec", .jstr "draft it", .NEW,
          ⟨2024, 2, 29, 12, 30, 45, 0⟩, ⟨2024, 3, 1, 0, 0, 0, 0⟩⟩,
        ⟨.jstr "Write spec", .jstr "", .CANCELED,
          ⟨1999, 12, 31, 23, 59, 59, 0⟩, ⟨2000, 1, 1, 0, 0, 0, 0⟩⟩], []⟩ :=
  claim1_store_round_trip _ (by decide)

/-- C2 as frozen is refuted: strftime prints years below 1000 without
padding while strptime demands exactly four year digits, so this valid
year-5 task with second-precision timestamps serializes to
"5-01-01 00:00:00" and fails to deserialize at all. -/
theorem claim2_counterexample :
    Task.from_dict (.jobj (Task.to_dict
      ⟨.jstr "a", .jstr "b", .NEW, ⟨5, 1, 1, 0, 0, 0, 0⟩,
        ⟨5, 1, 1, 0, 0, 0, 0⟩⟩)) = .error .valueError := rfl

/-- C2 (amended): a Task whose timestamps are valid datetime values
truncated to second precision with four-digit years (at least 1000)
deserializes from its own serialization to an equal Task, every field
included. -/
theorem claim2_task_round_trip (t : Task)
    (hc : t.created_date.Valid) (hcm : t.created_date.microsecond = 0)
    (hcy : 1000 ≤ t.created_date.year)
    (hs : t.status_changed_date.Valid) (hsm : t.status_changed_date.microsecond = 0)
    (hsy : 1000 ≤ t.status_changed_date.year) :
    Task.from_dict (.jobj t.to_dict) = .ok t :=
  from_dict_to_dict t hc hcm hcy hs hsm hsy

/-- Witness for C2 at a concrete task. -/
theorem claim2_task_round_trip_witness :
    Task.from_dict (.jobj (Task.to_dict
      ⟨.jstr "a", .jstr "b", .IN_PROGRESS, ⟨2023, 1, 5, 3, 4, 5, 0⟩,
        ⟨2023, 12, 31, 23, 59, 59, 0⟩⟩)) =
      .ok ⟨.jstr "a", .jstr "b", .IN_PROGRESS, ⟨2023, 1, 5, 3, 4, 5, 0⟩,
        ⟨2023, 12, 31, 23, 59, 59, 0⟩⟩ :=
  claim2_task_round_trip _ (by decide) rfl (by decide) (by decide) rfl (by decide)

/-- C3: when the first task whose title equals the argument sits at index i,
change_task_status updates exactly that task, setting its status to the new
status and its status_changed_date to the current time while keeping its
title, description and created_date, leaves every other task (later
duplicates included) untouched, appends one history entry, and raises
nothing. -/
theorem claim3_change_status_updates_first_match (m : TaskManager)
    (title : String) (s : TaskStatus) (now : DateTime) (i : Nat)
    (hi : i < m.tasks.length)
    (hmatch : (m.tasks.get ⟨i, hi⟩).title.eqString title = true)
    (hbefore : ∀ j (hj : j < m.tasks.length), j < i →
      (m.tasks.get ⟨j, hj⟩).title.eqString title = false) :
    m.change_task_status title s now =
      ({ tasks := m.tasks.set i
            { m.tasks.get ⟨i, hi⟩ with status := s, status_changed_date := now },
         history := m.history ++ [.statusChanged (m.tasks.get ⟨i, hi⟩).title s] },
       none) := by
  unfold TaskManager.change_task_status
  rw [changeLoop_first title s now m.tasks i hi hmatch hbefore]

/-- Witness for C3: with duplicate titles, only the first match at index 1
changes; its created_date, title and description and both other tasks stay. -/
theorem claim3_change_status_updates_first_match_witness :
    TaskManager.change_task_status ⟨[tA, tX1, tX2], [.added (.jstr "a")]⟩ "x"
        TaskStatus.IN_REVIEW dNow =
      ({ tasks := [tA, ⟨.jstr "x", .jstr "second", .IN_REVIEW, d0, dNow⟩, tX2],
         history := [.added (.jstr "a"),
           .statusChanged (.jstr "x") TaskStatus.IN_REVIEW] },
       none) :=
  claim3_change_status_updates_first_match ⟨[tA, tX1, tX2], [.added (.jstr "a")]⟩
    "x" TaskStatus.IN_REVIEW dNow 1 (by decide) (by decide) (by decide)

/-- C4: when no task title equals the argument, change_task_status raises
ValueError (the NotFoundError of the spec) and the manager, tasks and
history included, is exactly the one before the call. -/
theorem claim4_change_status_missing_title (m : TaskManager) (title : String)
    (s : TaskStatus) (now : DateTime)
    (h : ∀ t ∈ m.tasks, t.title.eqString title = false) :
    m.change_task_status title s now = (m, some .valueError) := by
  unfold TaskManager.change_task_status
  rw [changeLoop_eq_none title s now m.tasks h]

/-- Witness for C4 on a store that does not contain the requested title. -/
theorem claim4_change_status_missing_title_witness :
    TaskManager.change_task_status ⟨[tA, tX1], []⟩ "zzz" TaskStatus.CANCELED dNow =
      (⟨[tA, tX1], []⟩, some .valueError) :=
  claim4_change_status_missing_title ⟨[tA, tX1], []⟩ "zzz" TaskStatus.CANCELED dNow
    (by decide)

/-- C5 as frozen is refuted: a record whose timestamp strings do not match
the exact shape YYYY-MM-DD HH:MM:SS still deserializes, because strptime
accepts unpadded one-digit month, day, hour, minute and second fields. -/
theorem claim5_counterexample :
    Task.from_dict (.jobj [("title", .jstr "a"), ("description", .jstr "b"),
        ("status", .jstr "Новая"), ("created_date", .jstr "2023-1-5 3:4:5"),
        ("status_changed_date", .jstr "2023-1-5 3:4:5")]) =
      .ok ⟨.jstr "a", .jstr "b", .NEW, ⟨2023, 1, 5, 3, 4, 5, 0⟩,
        ⟨2023, 1, 5, 3, 4, 5, 0⟩⟩ := rfl

/-- C5 (amended): deserializing an object record fails exactly when a
required key is missing, the status value is not one of the five labels, or a
timestamp value is not a string the strptime format accepts as a valid
datetime (exactly four year digits, one or two digits for the other fields,
fields in calendar range, nothing left over); deserializeOk states that
condition. -/
theorem claim5_deserialize_error_iff (kvs : List (String × JVal)) :
    exceptOkB (Task.from_dict (.jobj kvs)) = deserializeOk kvs := by
  simp only [Task.from_dict, deserializeOk, buildTask_okB]

/-- C6 as frozen is refuted: a parseable document that is not a JSON object
has no tasks key, yet loading it raises AttributeError (the get call exists
only on mappings) instead of yielding an empty store. -/
theorem claim6_counterexample :
    TaskManager.load_from_file (JVal.jarr []) = .error .attributeError := rfl

/-- C6 (amended): loading a parseable JSON object without the tasks key
yields a store with no tasks and empty history; and every successful load
yields an empty history, whatever the document contained. -/
theorem claim6_load_defaults :
    (∀ kvs : List (String × JVal), lookupKey "tasks" kvs = none →
      TaskManager.load_from_file (.jobj kvs) = .ok ⟨[], []⟩) ∧
    (∀ (doc : JVal) (m : TaskManager),
      TaskManager.load_from_file doc = .ok m → m.history = []) := by
  constructor
  · intro kvs h
    simp [TaskManager.load_from_file, h, iterJVal, mapFromDict, TaskManager.init]
  · intro doc m h
    cases doc with
    | jnull => simp [TaskManager.load_from_file] at h
    | jbool b => simp [TaskManager.load_from_file] at h
    | jnum n => simp [TaskManager.load_from_file] at h
    | jstr s => simp [TaskManager.load_from_file] at h
    | jarr xs => simp [TaskManager.load_from_file] at h
    | jobj kvs =>
      simp only [TaskManager.load_from_file] at h
      split at h
      · exact absurd h (by simp)
      · split at h
        · exact absurd h (by simp)
        · injection h with hm
          rw [← hm]
          rfl

/-- Witness for C6 (amended), first part at the empty object. -/
theorem claim6_load_defaults_witness :
    TaskManager.load_from_file (JVal.jobj []) = .ok ⟨[], []⟩ :=
  claim6_load_defaults.1 [] rfl

/-- C7: add_task always succeeds; any sequence of N calls (titles arbitrary,
duplicates and empty strings included) grows the task list by exactly N and
appends exactly one history entry per call. -/
theorem claim7_add_task_always_appends (m : TaskManager) (ts : List Task) :
    (ts.foldl TaskManager.add_task m).tasks.length = m.tasks.length + ts.length ∧
    (ts.foldl TaskManager.add_task m).history =
      m.history ++ ts.map fun t => HistoryEntry.added t.title := by
  induction ts generalizing m with
  | nil => simp
  | cons t rest ih =>
    obtain ⟨ih1, ih2⟩ := ih (m.add_task t)
    constructor
    · simp only [List.foldl_cons]
      rw [ih1]
      simp only [TaskManager.add_task, List.length_append, List.length_cons,
        List.length_nil]
      omega
    · simp only [List.foldl_cons]
      rw [ih2]
      simp [TaskManager.add_task]

/-- C8 as frozen is refuted: the add branch reads datetime.now() twice, once
per timestamp field, so when the clock advances between the two reads the
constructed task has status_changed_date different from created_date. -/
theorem claim8_counterexample :
    (mkAddedTask "a" "b" ⟨2023, 1, 1, 0, 0, 0, 0⟩
        ⟨2023, 1, 1, 0, 0, 0, 1⟩).status_changed_date ≠
      (mkAddedTask "a" "b" ⟨2023, 1, 1, 0, 0, 0, 0⟩
        ⟨2023, 1, 1, 0, 0, 0, 1⟩).created_date := by
  decide

/-- C8 (amended): the added task has status NEW, created_date equal to the
first now() reading and status_changed_date equal to the second; the two
fields coincide exactly when the clock did not advance between the reads. -/
theorem claim8_added_task_fields (title description : String)
    (now1 now2 : DateTime) :
    (mkAddedTask title description now1 now2).status = TaskStatus.NEW ∧
    (mkAddedTask title description now1 now2).created_date = now1 ∧
    (mkAddedTask title description now1 now2).status_changed_date = now2 ∧
    ((mkAddedTask title description now1 now2).status_changed_date =
        (mkAddedTask title description now1 now2).created_date ↔ now2 = now1) :=
  ⟨rfl, rfl, rfl, Iff.rfl⟩

/-- C9: cancel_task is change_task_status with CANCELED, definitionally: the
same resulting state, history and raised exception on every store, title and
clock reading. -/
theorem claim9_cancel_is_change_to_canceled (m : TaskManager) (title : String)
    (now : DateTime) :
    m.cancel_task title now = m.change_task_status title TaskStatus.CANCELED now := rfl

/-- C10: from_dict reads only the five required keys: deserializing any
object record gives the same outcome as deserializing the record restricted
to the required keys, so extra keys never change the result and never cause
an error the restricted record would not cause. -/
theorem claim10_extra_keys_ignored (kvs : List (String × JVal)) :
    Task.from_dict (.jobj kvs) = Task.from_dict (.jobj (restrictRequired kvs)) := by
  simp only [Task.from_dict]
  rw [lookupKey_restrict "title" (by decide) kvs,
    lookupKey_restrict "description" (by decide) kvs,
    lookupKey_restrict "status" (by decide) kvs,
    lookupKey_restrict "created_date" (by decide) kvs,
    lookupKey_restrict "status_changed_date" (by decide) kvs]

end Py
